import Mathlib

/-!
Shallow embedding of the `elkarbackup` Ansible collection
(`plugins/modules/elkarbackup_client.py` and
`plugins/modules/elkarbackup_job.py`).

Remote resources arrive as JSON dictionaries; their scalar field values are
modelled by `Value` (null, booleans, integers, strings), list-valued fields
are modelled as `List Value`.  The validated module parameters
(`module.params`) are modelled by typed structures (`ClientParams`,
`JobParams`) whose field types follow the modules' `argument_spec`.
HTTP responses are modelled at the boundary the modules observe: the
optional `id` entry of `response.json()` plus the truthiness of the
response object.  Paths where the Python code would raise an uncaught
exception are modelled as `none`.
-/

/-- A scalar JSON value, as the Python modules see it after `response.json()`.
Per the API schema the compared fields are scalars or lists of scalars, so
nested containers are not needed. -/
inductive Value where
  | vNull
  | vBool (b : Bool)
  | vInt (n : Int)
  | vStr (s : String)
  deriving DecidableEq, Repr

/-- Python `==` on the scalar values above: `True == 1` holds, `'' == None`
does not, values of unrelated types are unequal. -/
def pyEq : Value → Value → Bool
  | .vNull, .vNull => true
  | .vBool a, .vBool b => a == b
  | .vBool a, .vInt n => (if a then (1 : Int) else 0) == n
  | .vInt n, .vBool b => n == (if b then (1 : Int) else 0)
  | .vInt a, .vInt b => a == b
  | .vStr a, .vStr b => a == b
  | _, _ => false

theorem pyEq_refl (v : Value) : pyEq v v = true := by
  cases v <;> simp [pyEq]

/-- Python `x in set(l)` membership, for scalar list elements. -/
def pyMem (v : Value) (l : List Value) : Bool :=
  l.any (fun w => pyEq v w)

/-- Python `set(a) == set(b)` for lists of scalars: mutual membership, so
order and duplicate multiplicity are irrelevant. -/
def pySetEq (a b : List Value) : Bool :=
  a.all (fun v => pyMem v b) && b.all (fun v => pyMem v a)

theorem pySetEq_refl (a : List Value) : pySetEq a a = true := by
  simp [pySetEq, pyMem, List.all_eq_true]
  intro v hv
  exact ⟨v, hv, pyEq_refl v⟩

def digitVal (c : Char) : Option Nat :=
  if c.isDigit then some (c.toNat - 48) else none

def digitsToNat : List Char → Nat → Option Nat
  | [], acc => some acc
  | c :: cs, acc =>
    match digitVal c with
    | some d => digitsToNat cs (acc * 10 + d)
    | none => none

/-- Python `int(s)` on a plain decimal string literal (optional leading
minus sign); `none` models a raised `ValueError`. -/
def strToInt (s : String) : Option Int :=
  match s.data with
  | [] => none
  | c :: cs =>
    if c = Char.ofNat 45 then
      match cs with
      | [] => none
      | _ => (digitsToNat cs 0).map (fun n => -(n : Int))
    else (digitsToNat (c :: cs) 0).map (fun n => (n : Int))

/-- Python `int(v)` on a scalar JSON value (`elkarbackup_client.py` line 221
applies it to the remote `quota`); `none` models a raised exception. -/
def intCoerce : Value → Option Int
  | .vInt n => some n
  | .vBool b => some (if b then 1 else 0)
  | .vStr s => strToInt s
  | .vNull => none

/-- Render an optional-string module parameter as the JSON value Python
compares against: `None` becomes null. -/
def optStr : Option String → Value
  | none => .vNull
  | some s => .vStr s

/-- An HTTP response at the boundary the modules observe: the `id` entry of
`response.json()` when present, and the truthiness of the response object
(`if response:`, true for 2xx/3xx status). -/
structure HttpResp where
  idVal : Option Value
  truthy : Bool
  deriving DecidableEq, Repr

/-- What a module stores into `result['api_result']` on failure: the raw
response object, the parsed body `response.json()`, a raw integer (the
client module stores the coerced `id` itself when it is 0), or a locally
synthesized `{title, detail}` dictionary. -/
inductive ApiResult where
  | resp (r : HttpResp)
  | json (r : HttpResp)
  | intVal (n : Int)
  | structured (title detail : String)
  deriving DecidableEq, Repr

/-- The observable outcome of one module run: the `result` dictionary passed
to `exit_json`/`fail_json`, plus whether `fail_json` was called. -/
structure ModuleResult where
  changed : Bool
  id : Option Int := none
  api_result : Option ApiResult := none
  failed : Bool := false
  deriving DecidableEq, Repr

/-- The `state` module parameter (validated against choices
`['present', 'absent']`). -/
inductive PState where
  | present
  | absent
  deriving DecidableEq, Repr

/-! ## Client module (`elkarbackup_client.py`) -/

/-- `module.params` of `elkarbackup_client`, after Ansible type validation
(api credentials and url omitted: they only address the transport). -/
structure ClientParams where
  description : String
  is_active : Bool
  max_parallel_jobs : Int
  name : String
  post_scripts : List Int
  pre_scripts : List Int
  quota : Int
  rsync_long_args : String
  rsync_short_args : String
  ssh_args : String
  url : String
  deriving DecidableEq, Repr

/-- A client object as returned by `GET /api/clients.json`. -/
structure ClientRemote where
  id : Value
  name : Value
  description : Value
  isActive : Value
  maxParallelJobs : Value
  quota : Value
  preScripts : List Value
  postScripts : List Value
  rsyncLongArgs : Value
  rsyncShortArgs : Value
  sshArgs : Value
  url : Value
  deriving DecidableEq, Repr

/-- `get_client_by_name`: one listing match is returned as-is; several are
scanned for the first exact name match; zero yield `None`. -/
def get_client_by_name (clients : List ClientRemote) (name : String) :
    Option ClientRemote :=
  if clients.length = 1 then clients.head?
  else if 0 < clients.length then
    clients.find? (fun c => pyEq c.name (.vStr name))
  else none

/-- `create_client`: if the response body has an `id` entry return
`int(id)`, otherwise return the response object; `none` models `int()`
raising. -/
def create_client (resp : HttpResp) : Option (Sum Int HttpResp) :=
  match resp.idVal with
  | some v => (intCoerce v).map Sum.inl
  | none => some (Sum.inr resp)

/-- `update_client`: if the response body has an `id` entry return it raw
(no coercion), otherwise return the response object. -/
def update_client (resp : HttpResp) : Sum Value HttpResp :=
  match resp.idVal with
  | some v => Sum.inl v
  | none => Sum.inr resp

/-- `delete_client`: `True` for a truthy response, otherwise the falsy
response object itself. -/
def delete_client (resp : HttpResp) : Sum Bool HttpResp :=
  if resp.truthy then Sum.inl true else Sum.inr resp

/-- The fields `run_module` of the client module compares, in source
order. -/
inductive CField where
  | description
  | isActive
  | maxParallelJobs
  | name
  | postScripts
  | preScripts
  | quota
  | rsyncLongArgs
  | rsyncShortArgs
  | sshArgs
  | url
  deriving DecidableEq, Repr

instance : Fintype CField :=
  ⟨⟨{.description, .isActive, .maxParallelJobs, .name, .postScripts,
     .preScripts, .quota, .rsyncLongArgs, .rsyncShortArgs, .sshArgs, .url},
    by decide⟩, by intro x; cases x <;> decide⟩

/-- `true` for the fields the client module compares by scalar `!=`,
`false` for the two compared through `set(...)`. -/
def cScalar : CField → Bool
  | .postScripts => false
  | .preScripts => false
  | _ => true

/-- The per-field comparison `run_module` performs on an existing client
(after the `quota` coercion of line 221): `remote == desired` per field. -/
def cFieldOk (f : CField) (c : ClientRemote) (p : ClientParams) : Bool :=
  match f with
  | .description => pyEq c.description (.vStr p.description)
  | .isActive => pyEq c.isActive (.vBool p.is_active)
  | .maxParallelJobs => pyEq c.maxParallelJobs (.vInt p.max_parallel_jobs)
  | .name => pyEq c.name (.vStr p.name)
  | .postScripts => pySetEq c.postScripts (p.post_scripts.map .vInt)
  | .preScripts => pySetEq c.preScripts (p.pre_scripts.map .vInt)
  | .quota => pyEq c.quota (.vInt p.quota)
  | .rsyncLongArgs => pyEq c.rsyncLongArgs (.vStr p.rsync_long_args)
  | .rsyncShortArgs => pyEq c.rsyncShortArgs (.vStr p.rsync_short_args)
  | .sshArgs => pyEq c.sshArgs (.vStr p.ssh_args)
  | .url => pyEq c.url (.vStr p.url)

/-- The `changed` flag accumulated by the eleven comparisons of
`run_module` (lines 222-254), in source order. -/
def clientChanged (c : ClientRemote) (p : ClientParams) : Bool :=
  !cFieldOk .description c p || !cFieldOk .isActive c p ||
  !cFieldOk .maxParallelJobs c p || !cFieldOk .name c p ||
  !cFieldOk .postScripts c p || !cFieldOk .preScripts c p ||
  !cFieldOk .quota c p || !cFieldOk .rsyncLongArgs c p ||
  !cFieldOk .rsyncShortArgs c p || !cFieldOk .sshArgs c p ||
  !cFieldOk .url c p

/-- The in-place mutation the comparisons perform on the fetched client
dictionary: every differing field is overwritten with the desired value,
every matching field is kept.  This mutated dictionary is the payload of
`update_client`. -/
def clientMerge (c : ClientRemote) (p : ClientParams) : ClientRemote :=
  { c with
    description :=
      if cFieldOk .description c p then c.description else .vStr p.description
    isActive :=
      if cFieldOk .isActive c p then c.isActive else .vBool p.is_active
    maxParallelJobs :=
      if cFieldOk .maxParallelJobs c p then c.maxParallelJobs
      else .vInt p.max_parallel_jobs
    name := if cFieldOk .name c p then c.name else .vStr p.name
    postScripts :=
      if cFieldOk .postScripts c p then c.postScripts
      else p.post_scripts.map .vInt
    preScripts :=
      if cFieldOk .preScripts c p then c.preScripts
      else p.pre_scripts.map .vInt
    quota := if cFieldOk .quota c p then c.quota else .vInt p.quota
    rsyncLongArgs :=
      if cFieldOk .rsyncLongArgs c p then c.rsyncLongArgs
      else .vStr p.rsync_long_args
    rsyncShortArgs :=
      if cFieldOk .rsyncShortArgs c p then c.rsyncShortArgs
      else .vStr p.rsync_short_args
    sshArgs := if cFieldOk .sshArgs c p then c.sshArgs else .vStr p.ssh_args
    url := if cFieldOk .url c p then c.url else .vStr p.url }

/-- A network write issued by the client module.  The create payload is the
dictionary literal of lines 267-279, which copies the module parameters
field for field, so it is carried as the parameters themselves. -/
inductive ClientWrite where
  | create (payload : ClientParams)
  | update (id : Value) (payload : ClientRemote)
  | delete (id : Value)
  deriving DecidableEq, Repr

/-- The responses the remote service gives to the (at most two) API calls
of one client module run. -/
structure ClientEnv where
  clients : List ClientRemote
  createResp : HttpResp
  updateResp : HttpResp
  deleteResp : HttpResp
  deriving DecidableEq, Repr

/-- `run_module` of `elkarbackup_client.py`: the resulting module outcome
together with the list of write calls issued, `none` when the Python code
would raise an uncaught exception. -/
def clientRunModule (p : ClientParams) (st : PState) (env : ClientEnv) :
    Option (ModuleResult × List ClientWrite) :=
  match st with
  | .present =>
    match get_client_by_name env.clients p.name with
    | some client =>
      match intCoerce client.quota with
      | none => none
      | some q =>
        let c := { client with quota := Value.vInt q }
        if clientChanged c p then
          let w := [ClientWrite.update c.id (clientMerge c p)]
          match update_client env.updateResp with
          | Sum.inl (.vInt n) =>
            if n = 0 then none
            else some ({ changed := true, id := some n }, w)
          | Sum.inl _ => none
          | Sum.inr r =>
            some ({ changed := false, api_result := some (.json r),
                    failed := true }, w)
        else some ({ changed := false }, [])
    | none =>
      let w := [ClientWrite.create p]
      match create_client env.createResp with
      | none => none
      | some (Sum.inl n) =>
        if n = 0 then
          some ({ changed := false, api_result := some (.intVal n),
                  failed := true }, w)
        else some ({ changed := true, id := some n }, w)
      | some (Sum.inr r) =>
        some ({ changed := false, api_result := some (.resp r),
                failed := true }, w)
  | .absent =>
    match get_client_by_name env.clients p.name with
    | some client =>
      match delete_client env.deleteResp with
      | Sum.inl _ =>
        some ({ changed := true }, [ClientWrite.delete client.id])
      | Sum.inr r =>
        some ({ changed := false, api_result := some (.resp r),
                failed := true }, [ClientWrite.delete client.id])
    | none => some ({ changed := false }, [])

/-! ## Job module (`elkarbackup_job.py`) -/

/-- `module.params` of `elkarbackup_job`, after Ansible type validation.
`exclude`, `include` and `notifications_email` default to `None`, hence the
`Option String` type. -/
structure JobParams where
  backup_location : Int
  client_name : String
  description : String
  exclude : Option String
  «include» : Option String
  is_active : Bool
  min_notification_level : Int
  name : String
  notifications_email : Option String
  notifications_to : List String
  path : String
  policy : Int
  post_scripts : List Int
  pre_scripts : List Int
  token : String
  use_local_permissions : Bool
  deriving DecidableEq, Repr

/-- A job object as returned by `GET /api/jobs.json`. -/
structure JobRemote where
  id : Value
  backupLocation : Value
  client : Value
  description : Value
  exclude : Value
  «include» : Value
  isActive : Value
  minNotificationLevel : Value
  name : Value
  notificationsEmail : Value
  notificationsTo : List Value
  path : Value
  policy : Value
  postScripts : List Value
  preScripts : List Value
  token : Value
  useLocalPermissions : Value
  deriving DecidableEq, Repr

/-- `get_job_by_name` (same disambiguation as `get_client_by_name`): one
listing match is returned as-is; several are scanned for the first exact
name match; zero yield `None`. -/
def get_job_by_name (jobs : List JobRemote) (name : String) :
    Option JobRemote :=
  if jobs.length = 1 then jobs.head?
  else if 0 < jobs.length then
    jobs.find? (fun j => pyEq j.name (.vStr name))
  else none

/-- `create_job`: if the response body has an `id` entry return `int(id)`,
otherwise return the response object; `none` models `int()` raising. -/
def create_job (resp : HttpResp) : Option (Sum Int HttpResp) :=
  match resp.idVal with
  | some v => (intCoerce v).map Sum.inl
  | none => some (Sum.inr resp)

/-- `update_job`: if the response body has an `id` entry return it raw,
otherwise return the response object. -/
def update_job (resp : HttpResp) : Sum Value HttpResp :=
  match resp.idVal with
  | some v => Sum.inl v
  | none => Sum.inr resp

/-- `delete_job`: `True` for a truthy response, otherwise the falsy
response object itself. -/
def delete_job (resp : HttpResp) : Sum Bool HttpResp :=
  if resp.truthy then Sum.inl true else Sum.inr resp

/-- The fields `run_module` of the job module compares, in source order. -/
inductive JField where
  | backupLocation
  | client
  | description
  | exclude
  | «include»
  | isActive
  | minNotificationLevel
  | name
  | notificationsEmail
  | notificationsTo
  | path
  | policy
  | postScripts
  | preScripts
  | token
  | useLocalPermissions
  deriving DecidableEq, Repr

instance : Fintype JField :=
  ⟨⟨{.backupLocation, .client, .description, .exclude, .«include»,
     .isActive, .minNotificationLevel, .name, .notificationsEmail,
     .notificationsTo, .path, .policy, .postScripts, .preScripts, .token,
     .useLocalPermissions}, by decide⟩, by intro x; cases x <;> decide⟩

/-- `true` for the fields the job module compares by scalar `!=` against a
plain module parameter; `false` for the three compared through `set(...)`
and for the `client` reference field. -/
def jScalar : JField → Bool
  | .client => false
  | .notificationsTo => false
  | .postScripts => false
  | .preScripts => false
  | _ => true

/-- The per-field comparison `run_module` performs on an existing job
(lines 266-313); `cid` is `client['id']` of the resolved client. -/
def jFieldOk (f : JField) (j : JobRemote) (p : JobParams) (cid : Value) :
    Bool :=
  match f with
  | .backupLocation => pyEq j.backupLocation (.vInt p.backup_location)
  | .client => pyEq j.client cid
  | .description => pyEq j.description (.vStr p.description)
  | .exclude => pyEq j.exclude (optStr p.exclude)
  | .«include» => pyEq j.«include» (optStr p.«include»)
  | .isActive => pyEq j.isActive (.vBool p.is_active)
  | .minNotificationLevel =>
    pyEq j.minNotificationLevel (.vInt p.min_notification_level)
  | .name => pyEq j.name (.vStr p.name)
  | .notificationsEmail =>
    pyEq j.notificationsEmail (optStr p.notifications_email)
  | .notificationsTo =>
    pySetEq j.notificationsTo (p.notifications_to.map .vStr)
  | .path => pyEq j.path (.vStr p.path)
  | .policy => pyEq j.policy (.vInt p.policy)
  | .postScripts => pySetEq j.postScripts (p.post_scripts.map .vInt)
  | .preScripts => pySetEq j.preScripts (p.pre_scripts.map .vInt)
  | .token => pyEq j.token (.vStr p.token)
  | .useLocalPermissions =>
    pyEq j.useLocalPermissions (.vBool p.use_local_permissions)

/-- The `changed` flag accumulated by the sixteen comparisons of the job
module's `run_module`, in source order. -/
def jobChanged (j : JobRemote) (p : JobParams) (cid : Value) : Bool :=
  !jFieldOk .backupLocation j p cid || !jFieldOk .client j p cid ||
  !jFieldOk .description j p cid || !jFieldOk .exclude j p cid ||
  !jFieldOk .«include» j p cid || !jFieldOk .isActive j p cid ||
  !jFieldOk .minNotificationLevel j p cid || !jFieldOk .name j p cid ||
  !jFieldOk .notificationsEmail j p cid ||
  !jFieldOk .notificationsTo j p cid || !jFieldOk .path j p cid ||
  !jFieldOk .policy j p cid || !jFieldOk .postScripts j p cid ||
  !jFieldOk .preScripts j p cid || !jFieldOk .token j p cid ||
  !jFieldOk .useLocalPermissions j p cid

/-- The in-place mutation the comparisons perform on the fetched job
dictionary; this mutated dictionary is the payload of `update_job`. -/
def jobMerge (j : JobRemote) (p : JobParams) (cid : Value) : JobRemote :=
  { j with
    backupLocation :=
      if jFieldOk .backupLocation j p cid then j.backupLocation
      else .vInt p.backup_location
    client := if jFieldOk .client j p cid then j.client else cid
    description :=
      if jFieldOk .description j p cid then j.description
      else .vStr p.description
    exclude :=
      if jFieldOk .exclude j p cid then j.exclude else optStr p.exclude
    «include» :=
      if jFieldOk .«include» j p cid then j.«include»
      else optStr p.«include»
    isActive :=
      if jFieldOk .isActive j p cid then j.isActive else .vBool p.is_active
    minNotificationLevel :=
      if jFieldOk .minNotificationLevel j p cid then j.minNotificationLevel
      else .vInt p.min_notification_level
    name := if jFieldOk .name j p cid then j.name else .vStr p.name
    notificationsEmail :=
      if jFieldOk .notificationsEmail j p cid then j.notificationsEmail
      else optStr p.notifications_email
    notificationsTo :=
      if jFieldOk .notificationsTo j p cid then j.notificationsTo
      else p.notifications_to.map .vStr
    path := if jFieldOk .path j p cid then j.path else .vStr p.path
    policy := if jFieldOk .policy j p cid then j.policy else .vInt p.policy
    postScripts :=
      if jFieldOk .postScripts j p cid then j.postScripts
      else p.post_scripts.map .vInt
    preScripts :=
      if jFieldOk .preScripts j p cid then j.preScripts
      else p.pre_scripts.map .vInt
    token := if jFieldOk .token j p cid then j.token else .vStr p.token
    useLocalPermissions :=
      if jFieldOk .useLocalPermissions j p cid then j.useLocalPermissions
      else .vBool p.use_local_permissions }

/-- A network write issued by the job module.  The create payload is the
dictionary literal of lines 326-343: the module parameters plus the
resolved `client['id']`. -/
inductive JobWrite where
  | create (clientId : Value) (payload : JobParams)
  | update (id : Value) (payload : JobRemote)
  | delete (id : Value)
  deriving DecidableEq, Repr

/-- The responses the remote service gives to the API calls of one job
module run. -/
structure JobEnv where
  clients : List ClientRemote
  jobs : List JobRemote
  createResp : HttpResp
  updateResp : HttpResp
  deleteResp : HttpResp
  deriving DecidableEq, Repr

/-- `run_module` of `elkarbackup_job.py`: the resulting module outcome
together with the list of write calls issued, `none` when the Python code
would raise an uncaught exception. -/
def jobRunModule (p : JobParams) (st : PState) (env : JobEnv) :
    Option (ModuleResult × List JobWrite) :=
  match st with
  | .present =>
    match get_client_by_name env.clients p.client_name with
    | none =>
      some ({ changed := false,
              api_result := some (.structured "Client name not found"
                ("Client name " ++ p.client_name ++ " not found")),
              failed := true }, [])
    | some client =>
      match get_job_by_name env.jobs p.name with
      | some job =>
        if jobChanged job p client.id then
          let w := [JobWrite.update job.id (jobMerge job p client.id)]
          match update_job env.updateResp with
          | Sum.inl (.vInt n) =>
            if n = 0 then none
            else some ({ changed := true, id := some n }, w)
          | Sum.inl _ => none
          | Sum.inr r =>
            some ({ changed := false, api_result := some (.json r),
                    failed := true }, w)
        else some ({ changed := false }, [])
      | none =>
        let w := [JobWrite.create client.id p]
        match create_job env.createResp with
        | none => none
        | some (Sum.inl n) =>
          if n = 0 then none
          else some ({ changed := true, id := some n }, w)
        | some (Sum.inr r) =>
          some ({ changed := false, api_result := some (.json r),
                  failed := true }, w)
  | .absent =>
    match get_job_by_name env.jobs p.name with
    | some job =>
      match delete_job env.deleteResp with
      | Sum.inl _ =>
        some ({ changed := true }, [JobWrite.delete job.id])
      | Sum.inr r =>
        some ({ changed := false, api_result := some (.resp r),
                failed := true }, [JobWrite.delete job.id])
    | none => some ({ changed := false }, [])

/-! ## Sample concrete data (used by witnesses and counterexamples) -/

/-- A concrete desired client specification. -/
def pC : ClientParams :=
  { description := "d", is_active := true, max_parallel_jobs := 1,
    name := "Name1", post_scripts := [2], pre_scripts := [1, 2],
    quota := 20000, rsync_long_args := "", rsync_short_args := "",
    ssh_args := "", url := "" }

/-- A concrete remote client that matches `pC` field for field. -/
def rC : ClientRemote :=
  { id := .vInt 7, name := .vStr "Name1", description := .vStr "d",
    isActive := .vBool true, maxParallelJobs := .vInt 1,
    quota := .vInt 20000, preScripts := [.vInt 1, .vInt 2],
    postScripts := [.vInt 2], rsyncLongArgs := .vStr "",
    rsyncShortArgs := .vStr "", sshArgs := .vStr "", url := .vStr "" }

/-- A successful write response carrying id 9. -/
def okResp : HttpResp := { idVal := some (.vInt 9), truthy := true }

/-- An error response carrying no id. -/
def errResp : HttpResp := { idVal := none, truthy := false }

/-- A concrete desired job specification for client `Name1`. -/
def pJ : JobParams :=
  { backup_location := 1, client_name := "Name1", description := "jd",
    exclude := none, «include» := none, is_active := true,
    min_notification_level := 0, name := "job1",
    notifications_email := none, notifications_to := ["admin"],
    path := "/backup", policy := 1, post_scripts := [], pre_scripts := [],
    token := "", use_local_permissions := true }

/-- A concrete remote job that matches `pJ` field for field (client id 7). -/
def rJ : JobRemote :=
  { id := .vInt 3, backupLocation := .vInt 1, client := .vInt 7,
    description := .vStr "jd", exclude := .vNull, «include» := .vNull,
    isActive := .vBool true, minNotificationLevel := .vInt 0,
    name := .vStr "job1", notificationsEmail := .vNull,
    notificationsTo := [.vStr "admin"], path := .vStr "/backup",
    policy := .vInt 1, postScripts := [], preScripts := [],
    token := .vStr "", useLocalPermissions := .vBool true }

/-! ## Claims -/

/-- C1: the reconciliation follows the five-row state machine, for both the
client and the job module: present+missing issues exactly one create and
reports changed=true; present+exists with empty diff issues no write and
reports changed=false; present+exists with non-empty diff issues exactly
one update and reports changed=true; absent+missing issues no write and
reports changed=false; absent+exists issues exactly one delete and reports
changed=true.  The write responses are assumed successful (a nonzero id,
resp. a truthy delete response), as in the spec's transition table. -/
theorem c1_state_machine :
    (∀ (p : ClientParams) (env : ClientEnv) (n : Int),
      get_client_by_name env.clients p.name = none →
      create_client env.createResp = some (Sum.inl n) → ¬ n = 0 →
      clientRunModule p .present env =
        some ({ changed := true, id := some n }, [ClientWrite.create p])) ∧
    (∀ (p : ClientParams) (env : ClientEnv) (c : ClientRemote) (q : Int),
      get_client_by_name env.clients p.name = some c →
      intCoerce c.quota = some q →
      clientChanged { c with quota := .vInt q } p = false →
      clientRunModule p .present env = some ({ changed := false }, [])) ∧
    (∀ (p : ClientParams) (env : ClientEnv) (c : ClientRemote) (q n : Int),
      get_client_by_name env.clients p.name = some c →
      intCoerce c.quota = some q →
      clientChanged { c with quota := .vInt q } p = true →
      update_client env.updateResp = Sum.inl (.vInt n) → ¬ n = 0 →
      clientRunModule p .present env =
        some ({ changed := true, id := some n },
          [ClientWrite.update c.id
            (clientMerge { c with quota := .vInt q } p)])) ∧
    (∀ (p : ClientParams) (env : ClientEnv),
      get_client_by_name env.clients p.name = none →
      clientRunModule p .absent env = some ({ changed := false }, [])) ∧
    (∀ (p : ClientParams) (env : ClientEnv) (c : ClientRemote),
      get_client_by_name env.clients p.name = some c →
      env.deleteResp.truthy = true →
      clientRunModule p .absent env =
        some ({ changed := true }, [ClientWrite.delete c.id])) ∧
    (∀ (p : JobParams) (env : JobEnv) (client : ClientRemote) (n : Int),
      get_client_by_name env.clients p.client_name = some client →
      get_job_by_name env.jobs p.name = none →
      create_job env.createResp = some (Sum.inl n) → ¬ n = 0 →
      jobRunModule p .present env =
        some ({ changed := true, id := some n },
          [JobWrite.create client.id p])) ∧
    (∀ (p : JobParams) (env : JobEnv) (client : ClientRemote)
        (j : JobRemote),
      get_client_by_name env.clients p.client_name = some client →
      get_job_by_name env.jobs p.name = some j →
      jobChanged j p client.id = false →
      jobRunModule p .present env = some ({ changed := false }, [])) ∧
    (∀ (p : JobParams) (env : JobEnv) (client : ClientRemote)
        (j : JobRemote) (n : Int),
      get_client_by_name env.clients p.client_name = some client →
      get_job_by_name env.jobs p.name = some j →
      jobChanged j p client.id = true →
      update_job env.updateResp = Sum.inl (.vInt n) → ¬ n = 0 →
      jobRunModule p .present env =
        some ({ changed := true, id := some n },
          [JobWrite.update j.id (jobMerge j p client.id)])) ∧
    (∀ (p : JobParams) (env : JobEnv),
      get_job_by_name env.jobs p.name = none →
      jobRunModule p .absent env = some ({ changed := false }, [])) ∧
    (∀ (p : JobParams) (env : JobEnv) (j : JobRemote),
      get_job_by_name env.jobs p.name = some j →
      env.deleteResp.truthy = true →
      jobRunModule p .absent env =
        some ({ changed := true }, [JobWrite.delete j.id])) := by
  refine ⟨?_, ?_, ?_, ?_, ?_, ?_, ?_, ?_, ?_, ?_⟩
  · intro p env n hlook hcr hn
    simp [clientRunModule, hlook, hcr, hn]
  · intro p env c q hlook hq hch
    simp [clientRunModule, hlook, hq, hch]
  · intro p env c q n hlook hq hch hup hn
    simp [clientRunModule, hlook, hq, hch, hup, hn]
  · intro p env hlook
    simp [clientRunModule, hlook]
  · intro p env c hlook hdel
    simp [clientRunModule, hlook, delete_client, hdel]
  · intro p env client n hcl hlook hcr hn
    simp [jobRunModule, hcl, hlook, hcr, hn]
  · intro p env client j hcl hlook hch
    simp [jobRunModule, hcl, hlook, hch]
  · intro p env client j n hcl hlook hch hup hn
    simp [jobRunModule, hcl, hlook, hch, hup, hn]
  · intro p env hlook
    simp [jobRunModule, hlook]
  · intro p env j hlook hdel
    simp [jobRunModule, hlook, delete_job, hdel]

/-- C1 witness: the create row instantiated on a concrete empty server. -/
theorem c1_state_machine_witness :
    clientRunModule pC .present
      { clients := [], createResp := okResp, updateResp := errResp,
        deleteResp := errResp } =
      some ({ changed := true, id := some 9 }, [ClientWrite.create pC]) :=
  c1_state_machine.1 pC
    { clients := [], createResp := okResp, updateResp := errResp,
      deleteResp := errResp } 9 (by decide) (by decide) (by decide)

/-! ## Helper lemmas -/

theorem clientChanged_iff (c : ClientRemote) (p : ClientParams) :
    clientChanged c p = false ↔ ∀ f, cFieldOk f c p = true := by
  constructor
  · intro h f
    simp only [clientChanged, Bool.or_eq_false_iff, Bool.not_eq_true',
      Bool.not_eq_false'] at h
    cases f <;> simp_all
  · intro h
    simp only [clientChanged, Bool.or_eq_false_iff, Bool.not_eq_true',
      Bool.not_eq_false']
    exact ⟨⟨⟨⟨⟨⟨⟨⟨⟨⟨h .description, h .isActive⟩, h .maxParallelJobs⟩,
      h .name⟩, h .postScripts⟩, h .preScripts⟩, h .quota⟩,
      h .rsyncLongArgs⟩, h .rsyncShortArgs⟩, h .sshArgs⟩, h .url⟩

theorem jobChanged_iff (j : JobRemote) (p : JobParams) (cid : Value) :
    jobChanged j p cid = false ↔ ∀ f, jFieldOk f j p cid = true := by
  constructor
  · intro h f
    simp only [jobChanged, Bool.or_eq_false_iff, Bool.not_eq_true',
      Bool.not_eq_false'] at h
    cases f <;> simp_all
  · intro h
    simp only [jobChanged, Bool.or_eq_false_iff, Bool.not_eq_true',
      Bool.not_eq_false']
    exact ⟨⟨⟨⟨⟨⟨⟨⟨⟨⟨⟨⟨⟨⟨⟨h .backupLocation, h .client⟩, h .description⟩,
      h .exclude⟩, h .«include»⟩, h .isActive⟩,
      h .minNotificationLevel⟩, h .name⟩, h .notificationsEmail⟩,
      h .notificationsTo⟩, h .path⟩, h .policy⟩, h .postScripts⟩,
      h .preScripts⟩, h .token⟩, h .useLocalPermissions⟩

theorem cFieldOk_merge (f : CField) (c : ClientRemote) (p : ClientParams) :
    cFieldOk f (clientMerge c p) p = true := by
  cases f <;> simp only [cFieldOk, clientMerge] <;> split <;>
    simp_all [cFieldOk, pyEq_refl, pySetEq_refl]

theorem jFieldOk_merge (f : JField) (j : JobRemote) (p : JobParams)
    (cid : Value) : jFieldOk f (jobMerge j p cid) p cid = true := by
  cases f <;> simp only [jFieldOk, jobMerge] <;> split <;>
    simp_all [jFieldOk, pyEq_refl, pySetEq_refl]

theorem clientChanged_merge (c : ClientRemote) (p : ClientParams) :
    clientChanged (clientMerge c p) p = false :=
  (clientChanged_iff _ _).2 (fun f => cFieldOk_merge f c p)

theorem jobChanged_merge (j : JobRemote) (p : JobParams) (cid : Value) :
    jobChanged (jobMerge j p cid) p cid = false :=
  (jobChanged_iff _ _ _).2 (fun f => jFieldOk_merge f j p cid)

/-- A remote client equal to `rC` except for a stale description, so the
first reconciliation must update it. -/
def rCd : ClientRemote := { rC with description := .vStr "old" }

/-- C2: the diff is empty iff the remote satisfies every per-field
comparison; reconciling an already-matching resource issues no write and
reports changed=false; and reconciling the same desired spec against the
remote state produced by a successful update (the merged payload) reports
changed=false with no further writes — for both modules. -/
theorem c2_idempotence :
    (∀ (c : ClientRemote) (p : ClientParams),
      clientChanged c p = false ↔ ∀ f, cFieldOk f c p = true) ∧
    (∀ (p : ClientParams) (env : ClientEnv) (c : ClientRemote) (q : Int),
      get_client_by_name env.clients p.name = some c →
      intCoerce c.quota = some q →
      (∀ f, cFieldOk f { c with quota := .vInt q } p = true) →
      clientRunModule p .present env = some ({ changed := false }, [])) ∧
    (∀ (c : ClientRemote) (p : ClientParams) (q : Int) (env2 : ClientEnv),
      intCoerce c.quota = some q →
      env2.clients = [clientMerge { c with quota := .vInt q } p] →
      clientRunModule p .present env2 = some ({ changed := false }, [])) ∧
    (∀ (j : JobRemote) (p : JobParams) (cid : Value),
      jobChanged j p cid = false ↔ ∀ f, jFieldOk f j p cid = true) ∧
    (∀ (p : JobParams) (env : JobEnv) (client : ClientRemote)
        (j : JobRemote),
      get_client_by_name env.clients p.client_name = some client →
      get_job_by_name env.jobs p.name = some j →
      (∀ f, jFieldOk f j p client.id = true) →
      jobRunModule p .present env = some ({ changed := false }, [])) ∧
    (∀ (j : JobRemote) (p : JobParams) (client : ClientRemote)
        (env2 : JobEnv),
      get_client_by_name env2.clients p.client_name = some client →
      env2.jobs = [jobMerge j p client.id] →
      jobRunModule p .present env2 = some ({ changed := false }, [])) := by
  refine ⟨clientChanged_iff, ?_, ?_, jobChanged_iff, ?_, ?_⟩
  · intro p env c q hlook hq hok
    simp [clientRunModule, hlook, hq, (clientChanged_iff _ _).2 hok]
  · intro c p q env2 hq henv
    have hx : ∃ x : Int,
        (clientMerge { c with quota := Value.vInt q } p).quota =
          Value.vInt x := by
      by_cases h : cFieldOk .quota { c with quota := Value.vInt q } p = true
      · exact ⟨q, by simp [clientMerge, h]⟩
      · exact ⟨p.quota, by simp [clientMerge, h]⟩
    obtain ⟨x, hmx⟩ := hx
    have heta :
        { clientMerge { c with quota := Value.vInt q } p with
            quota := Value.vInt x } =
          clientMerge { c with quota := Value.vInt q } p := by
      rw [← hmx]
    simp [clientRunModule, henv, get_client_by_name, hmx, intCoerce, heta,
      clientChanged_merge]
  · intro p env client j hcl hlook hok
    simp [jobRunModule, hcl, hlook, (jobChanged_iff _ _ _).2 hok]
  · intro j p client env2 hcl henv
    simp [jobRunModule, hcl, henv, get_job_by_name, jobChanged_merge]

/-- C2 witness: the second-run row instantiated concretely — after the
first run updates the stale description, a rerun against the updated
remote reports changed=false. -/
theorem c2_idempotence_witness :
    clientRunModule pC .present
      { clients := [clientMerge { rCd with quota := .vInt 20000 } pC],
        createResp := errResp, updateResp := errResp,
        deleteResp := errResp } =
      some ({ changed := false }, []) :=
  c2_idempotence.2.2.1 rCd pC 20000
    { clients := [clientMerge { rCd with quota := .vInt 20000 } pC],
      createResp := errResp, updateResp := errResp, deleteResp := errResp }
    (by decide) rfl

/-- A second remote client whose name does not match `pC`'s query. -/
def rX : ClientRemote := { rC with id := .vInt 8, name := .vStr "Other" }

/-- C3: name lookup disambiguation, for both modules: a one-element listing
is returned as-is; a longer listing is scanned for the first exact
(case-sensitive) name match, yielding none when no element matches
exactly; an empty listing yields none. -/
theorem c3_lookup_disambiguation :
    (∀ (c : ClientRemote) (name : String),
      get_client_by_name [c] name = some c) ∧
    (∀ (clients : List ClientRemote) (name : String),
      1 < clients.length →
      get_client_by_name clients name =
        clients.find? (fun c => pyEq c.name (.vStr name))) ∧
    (∀ (clients : List ClientRemote) (name : String),
      1 < clients.length →
      (∀ c ∈ clients, pyEq c.name (.vStr name) = false) →
      get_client_by_name clients name = none) ∧
    (∀ name : String, get_client_by_name [] name = none) ∧
    (∀ (j : JobRemote) (name : String), get_job_by_name [j] name = some j) ∧
    (∀ (jobs : List JobRemote) (name : String),
      1 < jobs.length →
      get_job_by_name jobs name =
        jobs.find? (fun j => pyEq j.name (.vStr name))) ∧
    (∀ (jobs : List JobRemote) (name : String),
      1 < jobs.length →
      (∀ j ∈ jobs, pyEq j.name (.vStr name) = false) →
      get_job_by_name jobs name = none) ∧
    (∀ name : String, get_job_by_name [] name = none) := by
  refine ⟨?_, ?_, ?_, ?_, ?_, ?_, ?_, ?_⟩
  · intro c name
    simp [get_client_by_name]
  · intro clients name hlen
    have h1 : clients.length ≠ 1 := by omega
    have h0 : 0 < clients.length := by omega
    simp [get_client_by_name, h1, h0]
  · intro clients name hlen hnone
    have h1 : clients.length ≠ 1 := by omega
    have h0 : 0 < clients.length := by omega
    simp [get_client_by_name, h1, h0, List.find?_eq_none]
    intro c hc
    simp [hnone c hc]
  · intro name
    simp [get_client_by_name]
  · intro j name
    simp [get_job_by_name]
  · intro jobs name hlen
    have h1 : jobs.length ≠ 1 := by omega
    have h0 : 0 < jobs.length := by omega
    simp [get_job_by_name, h1, h0]
  · intro jobs name hlen hnone
    have h1 : jobs.length ≠ 1 := by omega
    have h0 : 0 < jobs.length := by omega
    simp [get_job_by_name, h1, h0, List.find?_eq_none]
    intro j hj
    simp [hnone j hj]
  · intro name
    simp [get_job_by_name]

/-- C3 witness: a two-element listing where only the second client matches
the queried name exactly is resolved to the scan result. -/
theorem c3_lookup_disambiguation_witness :
    get_client_by_name [rX, rC] "Name1" =
      List.find? (fun c => pyEq c.name (.vStr "Name1")) [rX, rC] :=
  c3_lookup_disambiguation.2.1 [rX, rC] "Name1" (by decide)

/-- A single-quote character (the claim wraps the name in these), as a string. -/
def squote : String := String.singleton (Char.ofNat 39)

/-- C4 counterexample: for client_name `Name1` with no matching client, the
job module reports detail `Client name Name1 not found` — the name is NOT
wrapped in single quotes as the claim states. -/
theorem c4_counterexample :
    jobRunModule pJ .present
      { clients := [], jobs := [], createResp := errResp,
        updateResp := errResp, deleteResp := errResp } =
      some ({ changed := false,
              api_result := some (.structured "Client name not found"
                "Client name Name1 not found"),
              failed := true }, []) ∧
    "Client name Name1 not found" ≠
      "Client name " ++ squote ++ "Name1" ++ squote ++ " not found" := by
  refine ⟨by decide, by decide⟩

/-- C4 (amended): a job reconciliation with state=present whose client_name
resolves to no existing client fails fast before any write, with
changed=false and the structured error title `Client name not found` and
detail `Client name <name> not found` (the name unquoted). -/
theorem c4_reference_not_found (p : JobParams) (env : JobEnv) :
    get_client_by_name env.clients p.client_name = none →
    jobRunModule p .present env =
      some ({ changed := false,
              api_result := some (.structured "Client name not found"
                ("Client name " ++ p.client_name ++ " not found")),
              failed := true }, []) := by
  intro hcl
  simp [jobRunModule, hcl]

/-- C4 witness: the amended theorem at a concrete empty client listing. -/
theorem c4_reference_not_found_witness :
    jobRunModule pJ .present
      { clients := [], jobs := [rJ], createResp := okResp,
        updateResp := okResp, deleteResp := okResp } =
      some ({ changed := false,
              api_result := some (.structured "Client name not found"
                ("Client name " ++ pJ.client_name ++ " not found")),
              failed := true }, []) :=
  c4_reference_not_found pJ
    { clients := [], jobs := [rJ], createResp := okResp,
      updateResp := okResp, deleteResp := okResp } (by decide)

/-- C6 counterexample: a remote job whose `exclude` is the empty string,
against a desired `exclude` of null, diffs as CHANGED (the claim says
unchanged) and triggers an update write. -/
theorem c6_counterexample :
    jobChanged { rJ with exclude := .vStr "" } pJ (.vInt 7) = true ∧
    jobRunModule pJ .present
      { clients := [rC], jobs := [{ rJ with exclude := .vStr "" }],
        createResp := errResp, updateResp := okResp,
        deleteResp := errResp } =
      some ({ changed := true, id := some 9 },
        [JobWrite.update (.vInt 3)
          (jobMerge { rJ with exclude := .vStr "" } pJ (.vInt 7))]) := by
  refine ⟨by decide, by decide⟩

/-- C6 (amended): the nullable-scalar fields of a job (exclude, include,
notificationsEmail) are compared by plain value equality with no
empty-string sentinel: a string — even the empty string — never compares
equal to an explicit null, so remote empty-string vs desired null diffs as
changed; only an actual null compares equal to desired null. -/
theorem c6_nullable_plain_equality :
    (∀ s : String, pyEq (.vStr s) .vNull = false) ∧
    (∀ (j : JobRemote) (p : JobParams) (cid : Value) (s : String),
      j.exclude = .vStr s → p.exclude = none →
      jFieldOk .exclude j p cid = false) ∧
    (∀ (j : JobRemote) (p : JobParams) (cid : Value) (s : String),
      j.«include» = .vStr s → p.«include» = none →
      jFieldOk .«include» j p cid = false) ∧
    (∀ (j : JobRemote) (p : JobParams) (cid : Value) (s : String),
      j.notificationsEmail = .vStr s → p.notifications_email = none →
      jFieldOk .notificationsEmail j p cid = false) ∧
    (∀ (j : JobRemote) (p : JobParams) (cid : Value),
      j.exclude = .vNull → p.exclude = none →
      jFieldOk .exclude j p cid = true) := by
  refine ⟨?_, ?_, ?_, ?_, ?_⟩
  · intro s
    rfl
  · intro j p cid s hj hp
    simp [jFieldOk, hj, hp, optStr, pyEq]
  · intro j p cid s hj hp
    simp [jFieldOk, hj, hp, optStr, pyEq]
  · intro j p cid s hj hp
    simp [jFieldOk, hj, hp, optStr, pyEq]
  · intro j p cid hj hp
    simp [jFieldOk, hj, hp, optStr, pyEq]

/-- C6 witness: the amended exclude comparison at a concrete job. -/
theorem c6_nullable_plain_equality_witness :
    jFieldOk .exclude { rJ with exclude := .vStr "" } pJ (.vInt 7) =
      false :=
  c6_nullable_plain_equality.2.1 { rJ with exclude := .vStr "" } pJ
    (.vInt 7) "" rfl rfl

/-- A create response whose body carries the identifier 0. -/
def zeroIdResp : HttpResp := { idVal := some (.vInt 0), truthy := true }

/-- C7 counterexample: a create response whose body DOES contain an
identifier (0) still makes the reconciliation fail with changed=false, so
success is not equivalent to the presence of an identifier. -/
theorem c7_counterexample :
    zeroIdResp.idVal.isSome = true ∧
    clientRunModule pC .present
      { clients := [], createResp := zeroIdResp, updateResp := errResp,
        deleteResp := errResp } =
      some ({ changed := false, api_result := some (.intVal 0),
              failed := true }, [ClientWrite.create pC]) := by
  refine ⟨by decide, by decide⟩

/-- C7 (amended): a create succeeds and reports the new identifier exactly
when the response body carries an identifier whose integer coercion is
nonzero; a body with no identifier fails with changed=false and the raw
response (carrying the API error body) attached as api_result; a body with
identifier 0 fails with changed=false and api_result 0.  In every case
exactly one create call is issued. -/
theorem c7_create_outcomes :
    (∀ (p : ClientParams) (env : ClientEnv) (n : Int),
      get_client_by_name env.clients p.name = none →
      create_client env.createResp = some (Sum.inl n) → ¬ n = 0 →
      clientRunModule p .present env =
        some ({ changed := true, id := some n }, [ClientWrite.create p])) ∧
    (∀ (p : ClientParams) (env : ClientEnv),
      get_client_by_name env.clients p.name = none →
      env.createResp.idVal = none →
      clientRunModule p .present env =
        some ({ changed := false,
                api_result := some (.resp env.createResp),
                failed := true }, [ClientWrite.create p])) ∧
    (∀ (p : ClientParams) (env : ClientEnv),
      get_client_by_name env.clients p.name = none →
      create_client env.createResp = some (Sum.inl 0) →
      clientRunModule p .present env =
        some ({ changed := false, api_result := some (.intVal 0),
                failed := true }, [ClientWrite.create p])) ∧
    (∀ (p : JobParams) (env : JobEnv) (client : ClientRemote),
      get_client_by_name env.clients p.client_name = some client →
      get_job_by_name env.jobs p.name = none →
      env.createResp.idVal = none →
      jobRunModule p .present env =
        some ({ changed := false,
                api_result := some (.json env.createResp),
                failed := true }, [JobWrite.create client.id p])) := by
  refine ⟨?_, ?_, ?_, ?_⟩
  · intro p env n hlook hcr hn
    simp [clientRunModule, hlook, hcr, hn]
  · intro p env hlook hid
    simp [clientRunModule, hlook, create_client, hid]
  · intro p env hlook hcr
    simp [clientRunModule, hlook, hcr]
  · intro p env client hcl hlook hid
    simp [jobRunModule, hcl, hlook, create_job, hid]

/-- C7 witness: the no-identifier row at a concrete error response. -/
theorem c7_create_outcomes_witness :
    clientRunModule pC .present
      { clients := [], createResp := errResp, updateResp := okResp,
        deleteResp := okResp } =
      some ({ changed := false, api_result := some (.resp errResp),
              failed := true }, [ClientWrite.create pC]) :=
  c7_create_outcomes.2.1 pC
    { clients := [], createResp := errResp, updateResp := okResp,
      deleteResp := okResp } (by decide) rfl

/-! ## Set-comparison lemmas -/

theorem pyMem_map {α : Type} (emb : α → Value)
    (hemb : ∀ x y, pyEq (emb x) (emb y) = true ↔ x = y)
    (x : α) (l : List α) :
    pyMem (emb x) (l.map emb) = true ↔ x ∈ l := by
  simp only [pyMem, List.any_eq_true, List.mem_map]
  constructor
  · rintro ⟨v, ⟨y, hy, rfl⟩, hpe⟩
    rw [(hemb x y).1 hpe]
    exact hy
  · intro hx
    exact ⟨emb x, ⟨x, hx, rfl⟩, pyEq_refl _⟩

theorem pySetEq_map {α : Type} [DecidableEq α] (emb : α → Value)
    (hemb : ∀ x y, pyEq (emb x) (emb y) = true ↔ x = y)
    (rs ds : List α) :
    pySetEq (rs.map emb) (ds.map emb) = true ↔
      rs.toFinset = ds.toFinset := by
  simp only [pySetEq, Bool.and_eq_true, List.all_eq_true]
  constructor
  · rintro ⟨h1, h2⟩
    apply Finset.ext
    intro x
    simp only [List.mem_toFinset]
    constructor
    · intro hx
      exact (pyMem_map emb hemb x ds).1 (h1 _ (List.mem_map_of_mem _ hx))
    · intro hx
      exact (pyMem_map emb hemb x rs).1 (h2 _ (List.mem_map_of_mem _ hx))
  · intro h
    have hmem : ∀ x : α, x ∈ rs ↔ x ∈ ds := by
      intro x
      rw [← List.mem_toFinset, h, List.mem_toFinset]
    constructor
    · intro v hv
      obtain ⟨x, hx, rfl⟩ := List.mem_map.1 hv
      exact (pyMem_map emb hemb x ds).2 ((hmem x).1 hx)
    · intro v hv
      obtain ⟨x, hx, rfl⟩ := List.mem_map.1 hv
      exact (pyMem_map emb hemb x rs).2 ((hmem x).2 hx)

theorem pyEq_int_iff (x y : Int) :
    pyEq (.vInt x) (.vInt y) = true ↔ x = y := by
  simp [pyEq]

theorem pyEq_str_iff (x y : String) :
    pyEq (.vStr x) (.vStr y) = true ↔ x = y := by
  simp [pyEq]

/-- C5: the set-of-scalar fields compare as sets — two integer (resp.
string) lists compare equal under the module's `set(...)` comparison
exactly when they have the same set of elements, so order and duplicate
multiplicity are irrelevant; concretely, remote `[2,1]` vs desired `[1,2]`
and remote `[1,2]` vs desired `[1,2,2]` leave the whole client diff
unchanged, while remote `[1,2]` vs desired `[1,2,3]` marks it changed. -/
theorem c5_set_semantics :
    (∀ rs ds : List Int,
      pySetEq (rs.map .vInt) (ds.map .vInt) = true ↔
        rs.toFinset = ds.toFinset) ∧
    (∀ rs ds : List String,
      pySetEq (rs.map .vStr) (ds.map .vStr) = true ↔
        rs.toFinset = ds.toFinset) ∧
    pySetEq [.vInt 2, .vInt 1] [.vInt 1, .vInt 2] = true ∧
    pySetEq [.vInt 1, .vInt 2] [.vInt 1, .vInt 2, .vInt 2] = true ∧
    pySetEq [.vInt 1, .vInt 2] [.vInt 1, .vInt 2, .vInt 3] = false ∧
    clientChanged { rC with preScripts := [.vInt 2, .vInt 1] } pC = false ∧
    clientChanged { rC with postScripts := [.vInt 2, .vInt 2] }
      { pC with post_scripts := [2, 2, 2] } = false ∧
    clientChanged rC { pC with pre_scripts := [1, 2, 3] } = true ∧
    jobChanged { rJ with notificationsTo := [.vStr "owner", .vStr "admin"] }
      { pJ with notifications_to := ["admin", "owner"] } (.vInt 7) =
      false := by
  refine ⟨pySetEq_map .vInt pyEq_int_iff, pySetEq_map .vStr pyEq_str_iff,
    by decide, by decide, by decide, by decide, by decide, by decide,
    by decide⟩

/-- C5 witness: the integer set-equality characterization instantiated on
remote `[2,1]` vs desired `[1,2]`. -/
theorem c5_set_semantics_witness :
    pySetEq ([2, 1].map .vInt) ([1, 2].map .vInt) = true :=
  (c5_set_semantics.1 [2, 1] [1, 2]).2 (by decide)

/-- The spec-side reading of C8: the remote representation with exactly one
field replaced by its desired value. -/
def cSetDesired : CField → ClientRemote → ClientParams → ClientRemote
  | .description, c, p => { c with description := .vStr p.description }
  | .isActive, c, p => { c with isActive := .vBool p.is_active }
  | .maxParallelJobs, c, p =>
    { c with maxParallelJobs := .vInt p.max_parallel_jobs }
  | .name, c, p => { c with name := .vStr p.name }
  | .postScripts, c, p => { c with postScripts := p.post_scripts.map .vInt }
  | .preScripts, c, p => { c with preScripts := p.pre_scripts.map .vInt }
  | .quota, c, p => { c with quota := .vInt p.quota }
  | .rsyncLongArgs, c, p =>
    { c with rsyncLongArgs := .vStr p.rsync_long_args }
  | .rsyncShortArgs, c, p =>
    { c with rsyncShortArgs := .vStr p.rsync_short_args }
  | .sshArgs, c, p => { c with sshArgs := .vStr p.ssh_args }
  | .url, c, p => { c with url := .vStr p.url }

/-- The spec-side reading of C8 for jobs: the remote representation with
exactly one field replaced by its desired value. -/
def jSetDesired : JField → JobRemote → JobParams → Value → JobRemote
  | .backupLocation, j, p, _ =>
    { j with backupLocation := .vInt p.backup_location }
  | .client, j, _, cid => { j with client := cid }
  | .description, j, p, _ => { j with description := .vStr p.description }
  | .exclude, j, p, _ => { j with exclude := optStr p.exclude }
  | .«include», j, p, _ => { j with «include» := optStr p.«include» }
  | .isActive, j, p, _ => { j with isActive := .vBool p.is_active }
  | .minNotificationLevel, j, p, _ =>
    { j with minNotificationLevel := .vInt p.min_notification_level }
  | .name, j, p, _ => { j with name := .vStr p.name }
  | .notificationsEmail, j, p, _ =>
    { j with notificationsEmail := optStr p.notifications_email }
  | .notificationsTo, j, p, _ =>
    { j with notificationsTo := p.notifications_to.map .vStr }
  | .path, j, p, _ => { j with path := .vStr p.path }
  | .policy, j, p, _ => { j with policy := .vInt p.policy }
  | .postScripts, j, p, _ =>
    { j with postScripts := p.post_scripts.map .vInt }
  | .preScripts, j, p, _ => { j with preScripts := p.pre_scripts.map .vInt }
  | .token, j, p, _ => { j with token := .vStr p.token }
  | .useLocalPermissions, j, p, _ =>
    { j with useLocalPermissions := .vBool p.use_local_permissions }

/-- A remote client with a stale description and a quota serialized as the
numeric string `"20000"`. -/
def rCq : ClientRemote :=
  { rC with description := .vStr "old", quota := .vStr "20000" }

/-- C8 counterexample: with remote quota `"20000"` (a numeric string) and
desired quota `20000`, exactly one field (`description`) differs under the
diff semantics, yet the issued update payload is NOT the fetched remote
with only that field replaced: the quota was also rewritten from the
string `"20000"` to the integer `20000`. -/
theorem c8_counterexample :
    clientRunModule pC .present
      { clients := [rCq], createResp := errResp, updateResp := okResp,
        deleteResp := errResp } =
      some ({ changed := true, id := some 9 },
        [ClientWrite.update (.vInt 7)
          (clientMerge { rCq with quota := .vInt 20000 } pC)]) ∧
    cFieldOk .description { rCq with quota := .vInt 20000 } pC = false ∧
    (∀ g, ¬ g = CField.description →
      cFieldOk g { rCq with quota := .vInt 20000 } pC = true) ∧
    clientMerge { rCq with quota := .vInt 20000 } pC ≠
      { rCq with description := .vStr "d" } := by
  refine ⟨by decide, by decide, by decide, by decide⟩

/-- C8 (amended): when exactly one scalar field differs under the diff
semantics, the update payload equals the compared remote representation —
for a client, the fetched remote after its quota has been coerced to an
integer — with exactly that one field replaced by its desired value,
identity/reference fields aside: the job's `client` reference is kept when
it already matches the resolved client id and rewritten to that id when it
differs, and every other field keeps its remote value. -/
theorem c8_frame :
    (∀ (c : ClientRemote) (p : ClientParams) (f : CField),
      cScalar f = true →
      cFieldOk f c p = false →
      (∀ g, ¬ g = f → cFieldOk g c p = true) →
      clientMerge c p = cSetDesired f c p) ∧
    (∀ (j : JobRemote) (p : JobParams) (cid : Value) (f : JField),
      jScalar f = true →
      jFieldOk f j p cid = false →
      (∀ g, ¬ g = f → ¬ g = JField.client → jFieldOk g j p cid = true) →
      jobMerge j p cid =
        { jSetDesired f j p cid with
            client := if jFieldOk .client j p cid then j.client
                      else cid }) := by
  constructor
  · intro c p f hsc hdiff hok
    cases f <;> simp_all [clientMerge, cSetDesired, cScalar]
  · intro j p cid f hsc hdiff hok
    cases f <;> simp_all [jobMerge, jSetDesired, jScalar]

/-- C8 witness: the client frame property at a concrete remote whose only
differing scalar field is the description, and the job frame property at a
concrete remote whose description differs while its client reference (5)
also differs from the resolved client id (7). -/
theorem c8_frame_witness :
    clientMerge rCd pC = cSetDesired .description rCd pC ∧
    jobMerge { rJ with client := .vInt 5, description := .vStr "old" } pJ
        (.vInt 7) =
      { jSetDesired .description
          { rJ with client := .vInt 5, description := .vStr "old" } pJ
          (.vInt 7) with
          client :=
            if jFieldOk .client
                { rJ with client := .vInt 5, description := .vStr "old" }
                pJ (.vInt 7) then
              Value.vInt 5
            else .vInt 7 } :=
  ⟨c8_frame.1 rCd pC .description (by decide) (by decide) (by decide),
   c8_frame.2 { rJ with client := .vInt 5, description := .vStr "old" } pJ
     (.vInt 7) .description (by decide) (by decide) (by decide)⟩

/-- C9: when the name listing returns exactly one resource whose name
differs from the requested name (a fuzzy backend match), the lookup
returns it without checking the name; a present-reconciliation then diffs
the name field as changed and issues exactly one UPDATE that renames the
existing resource to the desired name — no create is issued.  Both
modules. -/
theorem c9_fuzzy_single_match :
    (∀ (c : ClientRemote) (p : ClientParams) (env : ClientEnv) (q n : Int),
      env.clients = [c] →
      intCoerce c.quota = some q →
      pyEq c.name (.vStr p.name) = false →
      update_client env.updateResp = Sum.inl (.vInt n) → ¬ n = 0 →
      get_client_by_name env.clients p.name = some c ∧
      clientRunModule p .present env =
        some ({ changed := true, id := some n },
          [ClientWrite.update c.id
            (clientMerge { c with quota := .vInt q } p)]) ∧
      (clientMerge { c with quota := .vInt q } p).name = .vStr p.name) ∧
    (∀ (j : JobRemote) (p : JobParams) (env : JobEnv)
        (client : ClientRemote) (n : Int),
      env.jobs = [j] →
      get_client_by_name env.clients p.client_name = some client →
      pyEq j.name (.vStr p.name) = false →
      update_job env.updateResp = Sum.inl (.vInt n) → ¬ n = 0 →
      get_job_by_name env.jobs p.name = some j ∧
      jobRunModule p .present env =
        some ({ changed := true, id := some n },
          [JobWrite.update j.id (jobMerge j p client.id)]) ∧
      (jobMerge j p client.id).name = .vStr p.name) := by
  constructor
  · intro c p env q n henv hq hname hup hn
    have hch : clientChanged { c with quota := .vInt q } p = true := by
      simp [clientChanged, cFieldOk, hname]
    refine ⟨by simp [get_client_by_name, henv], ?_,
      by simp [clientMerge, cFieldOk, hname]⟩
    simp [clientRunModule, henv, get_client_by_name, hq, hch, hup, hn]
  · intro j p env client n henv hcl hname hup hn
    have hch : jobChanged j p client.id = true := by
      simp [jobChanged, jFieldOk, hname]
    refine ⟨by simp [get_job_by_name, henv], ?_,
      by simp [jobMerge, jFieldOk, hname]⟩
    simp [jobRunModule, hcl, henv, get_job_by_name, hch, hup, hn]

/-- C9 witness: a single fuzzy client match named `Other` for the query
`Name1` is renamed through one update call. -/
theorem c9_fuzzy_single_match_witness :
    get_client_by_name [rX] pC.name = some rX ∧
    clientRunModule pC .present
      { clients := [rX], createResp := errResp, updateResp := okResp,
        deleteResp := errResp } =
      some ({ changed := true, id := some 9 },
        [ClientWrite.update rX.id
          (clientMerge { rX with quota := .vInt 20000 } pC)]) ∧
    (clientMerge { rX with quota := .vInt 20000 } pC).name =
      .vStr pC.name :=
  c9_fuzzy_single_match.1 rX pC
    { clients := [rX], createResp := errResp, updateResp := okResp,
      deleteResp := errResp } 20000 9 rfl (by decide) (by decide)
    (by decide) (by decide)

/-- C10: the remote quota is coerced to an integer before comparison, so a
remote quota serialized as a numeric string equal to the desired integer
does not by itself trigger an update; no other client field receives such
a coercion — a string-valued remote `maxParallelJobs` (or `isActive`)
never compares equal to its integer (boolean) desired value, so a remote
`maxParallelJobs` of `"1"` against a desired `1` marks the diff changed. -/
theorem c10_quota_coercion :
    (∀ (p : ClientParams) (env : ClientEnv) (c : ClientRemote) (s : String),
      get_client_by_name env.clients p.name = some c →
      c.quota = .vStr s →
      strToInt s = some p.quota →
      (∀ g, ¬ g = CField.quota →
        cFieldOk g { c with quota := .vInt p.quota } p = true) →
      clientRunModule p .present env = some ({ changed := false }, [])) ∧
    (∀ (c : ClientRemote) (p : ClientParams) (s : String),
      c.maxParallelJobs = .vStr s →
      cFieldOk .maxParallelJobs c p = false) ∧
    (∀ (c : ClientRemote) (p : ClientParams) (s : String),
      c.isActive = .vStr s →
      cFieldOk .isActive c p = false) ∧
    clientChanged
      { rC with quota := .vInt 20000, maxParallelJobs := .vStr "1" } pC =
      true := by
  refine ⟨?_, ?_, ?_, by decide⟩
  · intro p env c s hlook hcq hs hok
    have hq : intCoerce c.quota = some p.quota := by
      simp [intCoerce, hcq, hs]
    have hall : ∀ f, cFieldOk f { c with quota := .vInt p.quota } p =
        true := by
      intro f
      by_cases hf : f = CField.quota
      · subst hf
        simp [cFieldOk, pyEq]
      · exact hok f hf
    simp [clientRunModule, hlook, hq, (clientChanged_iff _ _).2 hall]
  · intro c p s hc
    simp [cFieldOk, hc, pyEq]
  · intro c p s hc
    simp [cFieldOk, hc, pyEq]

/-- C10 witness: a remote quota of `"20000"` against a desired quota of
20000, all other fields matching, reconciles as an unchanged no-op. -/
theorem c10_quota_coercion_witness :
    clientRunModule pC .present
      { clients := [{ rC with quota := .vStr "20000" }],
        createResp := errResp, updateResp := errResp,
        deleteResp := errResp } =
      some ({ changed := false }, []) :=
  c10_quota_coercion.1 pC
    { clients := [{ rC with quota := .vStr "20000" }],
      createResp := errResp, updateResp := errResp, deleteResp := errResp }
    { rC with quota := .vStr "20000" } "20000" (by decide) rfl (by decide)
    (by decide)
